import Mathlib

/-!
Shallow embedding of the `squareup` repository's Customers API client
(`src/squareup/src/api/customers_api.rs`) and the webhook model
(`src/squareup/src/models/location_updated_webhook_response.rs`).

Pure URL construction is embedded directly from the source.  The HTTP
transport, the serde (de)serialization layer, and the parameter/request
model structs live in parts of the repository that are not in scope, so
they are modelled from the specification; each such definition carries a
doc comment starting with `Modelled from the spec:`.
-/

namespace Squareup

/-- Modelled from the spec: a minimal JSON value tree, enough to express the
vendor's JSON request/response bodies (string fields, integer version
tokens, and objects of named fields). -/
inductive Json where
  | str : String → Json
  | num : Int → Json
  | obj : List (String × Json) → Json

/-- HTTP verbs used by the client (the spec's GET/POST/PUT/DELETE). -/
inductive Method where
  | GET
  | POST
  | PUT
  | DELETE
deriving DecidableEq, Repr

/-- One HTTP request as issued by the client: verb, full URL, and an
optional serialized JSON body (`none` for bodiless requests). -/
structure HttpRequest where
  method : Method
  url : String
  body : Option Json

/-- Modelled from the spec: the single error taxonomy (`SquareApiError`)
surfacing transport failures and deserialization failures. -/
structure SquareApiError where
  message : String
deriving DecidableEq, Repr

/-- Modelled from the spec: a raw HTTP response as handed back by the
transport, before deserialization. -/
structure HttpResponse where
  body : String
deriving DecidableEq, Repr

/-- Modelled from the spec: the HTTP transport handle.  One network round
trip maps one request to either a raw response or a transport error. -/
def Transport : Type := HttpRequest → Except SquareApiError HttpResponse

/-- Modelled from the spec: `HttpClient::get` issues exactly one GET
request with no body and returns the transport's answer together with the
list of requests issued. -/
def HttpClient.get (t : Transport) (u : String) :
    Except SquareApiError HttpResponse × List HttpRequest :=
  let req : HttpRequest := ⟨Method.GET, u, none⟩
  (t req, [req])

/-- Modelled from the spec: `HttpClient::post` issues exactly one POST
request carrying the serialized body. -/
def HttpClient.post (t : Transport) (u : String) (b : Json) :
    Except SquareApiError HttpResponse × List HttpRequest :=
  let req : HttpRequest := ⟨Method.POST, u, some b⟩
  (t req, [req])

/-- Modelled from the spec: `HttpClient::put` issues exactly one PUT
request carrying the serialized body. -/
def HttpClient.put (t : Transport) (u : String) (b : Json) :
    Except SquareApiError HttpResponse × List HttpRequest :=
  let req : HttpRequest := ⟨Method.PUT, u, some b⟩
  (t req, [req])

/-- Modelled from the spec: `HttpClient::delete` issues exactly one DELETE
request with no body. -/
def HttpClient.delete (t : Transport) (u : String) :
    Except SquareApiError HttpResponse × List HttpRequest :=
  let req : HttpRequest := ⟨Method.DELETE, u, none⟩
  (t req, [req])

/-- Modelled from the spec: `HttpClient::empty_put` issues exactly one PUT
request with no body. -/
def HttpClient.empty_put (t : Transport) (u : String) :
    Except SquareApiError HttpResponse × List HttpRequest :=
  let req : HttpRequest := ⟨Method.PUT, u, none⟩
  (t req, [req])

/-- The `?`-then-deserialize tail shared by every operation: a transport
error propagates unchanged, a raw response is deserialized (which may in
turn fail with a `SquareApiError`). -/
def handleResponse {α : Type} (d : HttpResponse → Except SquareApiError α) :
    Except SquareApiError HttpResponse → Except SquareApiError α
  | Except.error e => Except.error e
  | Except.ok r => d r

/-- Modelled from the spec: the shared configuration, holding the base
URL. -/
structure Configuration where
  base_url : String
deriving DecidableEq, Repr

/-- Accessor used by `CustomersApi::url`. -/
def Configuration.get_base_url (c : Configuration) : String := c.base_url

/-- `const DEFAULT_URI: &str = "/customers";` -/
def DEFAULT_URI : String := "/customers"

/-- The `CustomersApi` struct: app config and the HTTP client handle. -/
structure CustomersApi where
  config : Configuration
  http_client : Transport

/-- `CustomersApi::url`: base URL followed by the fixed `/customers`
path. -/
def CustomersApi.url (api : CustomersApi) : String :=
  api.config.get_base_url ++ DEFAULT_URI

/-- Modelled from the spec: `ListCustomersParameters`, carrying the opaque
pagination cursor that is passed through to the query string. -/
structure ListCustomersParameters where
  cursor : Option String
deriving DecidableEq, Repr

/-- Modelled from the spec: `ListCustomersParameters::to_query_string`,
rendering the parameters as a query string (empty when no parameter is
set). -/
def ListCustomersParameters.to_query_string (p : ListCustomersParameters) : String :=
  match p.cursor with
  | none => ""
  | some c => "?cursor=" ++ c

/-- Modelled from the spec: `DeleteCustomerParameters`, carrying the
caller-supplied optimistic-concurrency version token. -/
structure DeleteCustomerParameters where
  version : Option Int
deriving DecidableEq, Repr

/-- Modelled from the spec: `DeleteCustomerParameters::to_query_string`,
rendering the version token verbatim as a query string (empty when no
token is supplied). -/
def DeleteCustomerParameters.to_query_string (p : DeleteCustomerParameters) : String :=
  match p.version with
  | none => ""
  | some v => "?version=" ++ toString v

/-- Modelled from the spec: `CreateCustomerRequest`, a passive record of
the optional name/contact fields the vendor accepts. -/
structure CreateCustomerRequest where
  given_name : Option String
  family_name : Option String
  company_name : Option String
  email_address : Option String
  phone_number : Option String
deriving DecidableEq, Repr

/-- Helper for serializing optional string fields: present fields map to
their JSON string, absent fields are omitted. -/
def optStrField (k : String) (v : Option String) : List (String × Json) :=
  match v with
  | none => []
  | some s => [(k, Json.str s)]

/-- Modelled from the spec: structural field mapping of
`CreateCustomerRequest` to its JSON body. -/
def CreateCustomerRequest.toJson (b : CreateCustomerRequest) : Json :=
  Json.obj (optStrField "given_name" b.given_name ++
    optStrField "family_name" b.family_name ++
    optStrField "company_name" b.company_name ++
    optStrField "email_address" b.email_address ++
    optStrField "phone_number" b.phone_number)

/-- Modelled from the spec: `SearchCustomersRequest`, a passive record of
the query filter and pagination cursor. -/
structure SearchCustomersRequest where
  query : Option String
  cursor : Option String
deriving DecidableEq, Repr

/-- Modelled from the spec: structural field mapping of
`SearchCustomersRequest` to its JSON body. -/
def SearchCustomersRequest.toJson (b : SearchCustomersRequest) : Json :=
  Json.obj (optStrField "query" b.query ++ optStrField "cursor" b.cursor)

/-- Modelled from the spec: `UpdateCustomerRequest`, a passive record of
the updatable fields plus the caller-supplied optimistic-concurrency
version token. -/
structure UpdateCustomerRequest where
  given_name : Option String
  family_name : Option String
  email_address : Option String
  version : Option Int
deriving DecidableEq, Repr

/-- Modelled from the spec: structural field mapping of
`UpdateCustomerRequest` to its JSON body; the version token is copied
verbatim into the `version` field. -/
def UpdateCustomerRequest.toJson (b : UpdateCustomerRequest) : Json :=
  Json.obj (optStrField "given_name" b.given_name ++
    optStrField "family_name" b.family_name ++
    optStrField "email_address" b.email_address ++
    (match b.version with
     | none => []
     | some v => [("version", Json.num v)]))

/-- Modelled from the spec: the deserialized `ListCustomersResponse`
envelope, a passive container for the vendor's payload. -/
structure ListCustomersResponse where
  payload : Json

/-- Modelled from the spec: the deserialized `CreateCustomerResponse`
envelope. -/
structure CreateCustomerResponse where
  payload : Json

/-- Modelled from the spec: the deserialized `SearchCustomersResponse`
envelope. -/
structure SearchCustomersResponse where
  payload : Json

/-- Modelled from the spec: the deserialized `DeleteCustomerResponse`
envelope. -/
structure DeleteCustomerResponse where
  payload : Json

/-- Modelled from the spec: the deserialized `RetrieveCustomerResponse`
envelope. -/
structure RetrieveCustomerResponse where
  payload : Json

/-- Modelled from the spec: the deserialized `UpdateCustomerResponse`
envelope. -/
structure UpdateCustomerResponse where
  payload : Json

/-- Modelled from the spec: the deserialized
`RemoveGroupFromCustomerResponse` envelope. -/
structure RemoveGroupFromCustomerResponse where
  payload : Json

/-- Modelled from the spec: the deserialized `AddGroupToCustomerResponse`
envelope. -/
structure AddGroupToCustomerResponse where
  payload : Json

/-- The outcome of one client call: the client after the call (the Rust
methods take `&self`, so it is unchanged), the typed result, and the list
of HTTP requests issued during the call. -/
structure CallOutcome (α : Type) where
  api : CustomersApi
  result : Except SquareApiError α
  requests : List HttpRequest

/-- `CustomersApi::list_customers`: GET on `url() ++ params.to_query_string()`,
then deserialize.  The serde deserializer `d` is a parameter because serde
lives outside the sources in scope. -/
def CustomersApi.list_customers (api : CustomersApi)
    (d : HttpResponse → Except SquareApiError ListCustomersResponse)
    (params : ListCustomersParameters) : CallOutcome ListCustomersResponse :=
  let url := api.url ++ params.to_query_string
  let rt := HttpClient.get api.http_client url
  ⟨api, handleResponse d rt.1, rt.2⟩

/-- `CustomersApi::create_customer`: POST on `url()` with the serialized
body, then deserialize. -/
def CustomersApi.create_customer (api : CustomersApi)
    (d : HttpResponse → Except SquareApiError CreateCustomerResponse)
    (body : CreateCustomerRequest) : CallOutcome CreateCustomerResponse :=
  let rt := HttpClient.post api.http_client api.url body.toJson
  ⟨api, handleResponse d rt.1, rt.2⟩

/-- `CustomersApi::search_customers`: POST on `url() ++ "/search"` with the
serialized body, then deserialize. -/
def CustomersApi.search_customers (api : CustomersApi)
    (d : HttpResponse → Except SquareApiError SearchCustomersResponse)
    (body : SearchCustomersRequest) : CallOutcome SearchCustomersResponse :=
  let url := api.url ++ "/search"
  let rt := HttpClient.post api.http_client url body.toJson
  ⟨api, handleResponse d rt.1, rt.2⟩

/-- `CustomersApi::delete_customer`: DELETE on
`url() ++ "/" ++ customer_id ++ params.to_query_string()`, then
deserialize. -/
def CustomersApi.delete_customer (api : CustomersApi)
    (d : HttpResponse → Except SquareApiError DeleteCustomerResponse)
    (customer_id : String) (params : DeleteCustomerParameters) :
    CallOutcome DeleteCustomerResponse :=
  let url := api.url ++ "/" ++ customer_id ++ params.to_query_string
  let rt := HttpClient.delete api.http_client url
  ⟨api, handleResponse d rt.1, rt.2⟩

/-- `CustomersApi::retrieve_customer`: GET on `url() ++ "/" ++ customer_id`,
then deserialize. -/
def CustomersApi.retrieve_customer (api : CustomersApi)
    (d : HttpResponse → Except SquareApiError RetrieveCustomerResponse)
    (customer_id : String) : CallOutcome RetrieveCustomerResponse :=
  let url := api.url ++ "/" ++ customer_id
  let rt := HttpClient.get api.http_client url
  ⟨api, handleResponse d rt.1, rt.2⟩

/-- `CustomersApi::update_customer`: PUT on `url() ++ "/" ++ customer_id`
with the serialized body, then deserialize. -/
def CustomersApi.update_customer (api : CustomersApi)
    (d : HttpResponse → Except SquareApiError UpdateCustomerResponse)
    (customer_id : String) (body : UpdateCustomerRequest) :
    CallOutcome UpdateCustomerResponse :=
  let url := api.url ++ "/" ++ customer_id
  let rt := HttpClient.put api.http_client url body.toJson
  ⟨api, handleResponse d rt.1, rt.2⟩

/-- `CustomersApi::remove_group_from_customer`: DELETE on
`url() ++ "/" ++ customer_id ++ "/groups/" ++ group_id`, then
deserialize. -/
def CustomersApi.remove_group_from_customer (api : CustomersApi)
    (d : HttpResponse → Except SquareApiError RemoveGroupFromCustomerResponse)
    (customer_id : String) (group_id : String) :
    CallOutcome RemoveGroupFromCustomerResponse :=
  let url := api.url ++ "/" ++ customer_id ++ "/groups/" ++ group_id
  let rt := HttpClient.delete api.http_client url
  ⟨api, handleResponse d rt.1, rt.2⟩

/-- `CustomersApi::add_group_to_customer`: bodiless PUT (`empty_put`) on
`url() ++ "/" ++ customer_id ++ "/groups/" ++ group_id`, then
deserialize. -/
def CustomersApi.add_group_to_customer (api : CustomersApi)
    (d : HttpResponse → Except SquareApiError AddGroupToCustomerResponse)
    (customer_id : String) (group_id : String) :
    CallOutcome AddGroupToCustomerResponse :=
  let url := api.url ++ "/" ++ customer_id ++ "/groups/" ++ group_id
  let rt := HttpClient.empty_put api.http_client url
  ⟨api, handleResponse d rt.1, rt.2⟩

/-- First-match lookup of a field in a JSON object's field list, the way a
structural deserializer reads named fields. -/
def lookupField : List (String × Json) → String → Option Json
  | [], _ => none
  | (k, v) :: rest, key => if k = key then some v else lookupField rest key

/-- Field access on a JSON value: defined on objects only. -/
def Json.getField (j : Json) (key : String) : Option Json :=
  match j with
  | Json.obj fields => lookupField fields key
  | _ => none

/-- String extraction from a JSON value. -/
def Json.asStr (j : Json) : Option String :=
  match j with
  | Json.str s => some s
  | _ => none

/-- Modelled from the spec: `LocationWebhookEventType`, the enum whose only
value serializes as the string `location.updated`. -/
inductive LocationWebhookEventType where
  | LocationUpdated
deriving DecidableEq, Repr

/-- Serialization of the event type enum. -/
def LocationWebhookEventType.toJson : LocationWebhookEventType → Json
  | LocationWebhookEventType.LocationUpdated => Json.str "location.updated"

/-- Deserialization of the event type enum. -/
def LocationWebhookEventType.fromJson (j : Json) : Option LocationWebhookEventType :=
  match j with
  | Json.str s =>
      if s = "location.updated" then some LocationWebhookEventType.LocationUpdated
      else none
  | _ => none

/-- Modelled from the spec: `DateTime`, an RFC 3339 timestamp carried as a
string. -/
structure DateTime where
  value : String
deriving DecidableEq, Repr

/-- Serialization of a timestamp: its RFC 3339 string. -/
def DateTime.toJson (d : DateTime) : Json := Json.str d.value

/-- Deserialization of a timestamp from its JSON string. -/
def DateTime.fromJson (j : Json) : Option DateTime :=
  match j with
  | Json.str s => some ⟨s⟩
  | _ => none

/-- Modelled from the spec: `LocationUpdatedEventData`, the nested
event-specific data record (type tag and object id). -/
structure LocationUpdatedEventData where
  type : String
  id : String
deriving DecidableEq, Repr

/-- Structural field mapping of the nested event data to JSON. -/
def LocationUpdatedEventData.toJson (d : LocationUpdatedEventData) : Json :=
  Json.obj [("type", Json.str d.type), ("id", Json.str d.id)]

/-- Structural field reading of the nested event data from JSON. -/
def LocationUpdatedEventData.fromJson (j : Json) : Option LocationUpdatedEventData := do
  let t ← (← j.getField "type").asStr
  let i ← (← j.getField "id").asStr
  pure ⟨t, i⟩

/-- The `LocationUpdatedWebhookResponse` model struct: the six fields of the
`location.updated` webhook payload. -/
structure LocationUpdatedWebhookResponse where
  merchant_id : String
  location_id : String
  type : LocationWebhookEventType
  event_id : String
  created_at : DateTime
  data : LocationUpdatedEventData
deriving DecidableEq, Repr

/-- Structural field mapping of the webhook payload to JSON (the serde
`Serialize` derive): each field is written under its own name, with no
derived computation or defaulting. -/
def LocationUpdatedWebhookResponse.toJson (r : LocationUpdatedWebhookResponse) : Json :=
  Json.obj [("merchant_id", Json.str r.merchant_id),
    ("location_id", Json.str r.location_id),
    ("type", r.type.toJson),
    ("event_id", Json.str r.event_id),
    ("created_at", r.created_at.toJson),
    ("data", r.data.toJson)]

/-- Structural field reading of the webhook payload from JSON (the serde
`Deserialize` derive): each required field is read under its own name, with
no validation beyond field presence and shape. -/
def LocationUpdatedWebhookResponse.fromJson (j : Json) :
    Option LocationUpdatedWebhookResponse := do
  let m ← (← j.getField "merchant_id").asStr
  let l ← (← j.getField "location_id").asStr
  let t ← LocationWebhookEventType.fromJson (← j.getField "type")
  let e ← (← j.getField "event_id").asStr
  let c ← DateTime.fromJson (← j.getField "created_at")
  let d ← LocationUpdatedEventData.fromJson (← j.getField "data")
  pure ⟨m, l, t, e, c, d⟩

/-- The URLs of the requests issued during one call. -/
def CallOutcome.urls {α : Type} (o : CallOutcome α) : List String :=
  o.requests.map HttpRequest.url

/-- The HTTP verbs of the requests issued during one call. -/
def CallOutcome.methods {α : Type} (o : CallOutcome α) : List Method :=
  o.requests.map HttpRequest.method

/-- Direct propagation: the result is `ok v` exactly when the transport
answered with a raw response that deserializes to `v`, and it is `error e`
exactly when either the transport or the deserializer produced that very
error; the error is never transformed. -/
def PropagatesDirectly {α : Type} (t : Transport) (req : HttpRequest)
    (d : HttpResponse → Except SquareApiError α)
    (res : Except SquareApiError α) : Prop :=
  (∀ v, res = Except.ok v ↔ ∃ r, t req = Except.ok r ∧ d r = Except.ok v) ∧
  (∀ e, res = Except.error e ↔
    t req = Except.error e ∨ ∃ r, t req = Except.ok r ∧ d r = Except.error e)

/-- The shared request/deserialize tail propagates directly. -/
theorem handleResponse_propagates {α : Type} (t : Transport) (req : HttpRequest)
    (d : HttpResponse → Except SquareApiError α) :
    PropagatesDirectly t req d (handleResponse d (t req)) := by
  refine ⟨fun v => ?_, fun e => ?_⟩ <;>
    cases h : t req <;> simp [handleResponse, h]

/-- A concrete transport for evaluating the development on closed inputs:
it refuses every request with a fixed transport error. -/
def demoTransport : Transport := fun _ => Except.error ⟨"transport down"⟩

/-- A concrete client instance built over `demoTransport`. -/
def demoApi : CustomersApi := ⟨⟨"https://connect.example"⟩, demoTransport⟩

/-- A concrete deserializer for `DeleteCustomerResponse`. -/
def demoDeleteDeser : HttpResponse → Except SquareApiError DeleteCustomerResponse :=
  fun r => Except.ok ⟨Json.str r.body⟩

/-- A concrete deserializer for `UpdateCustomerResponse`. -/
def demoUpdateDeser : HttpResponse → Except SquareApiError UpdateCustomerResponse :=
  fun r => Except.ok ⟨Json.str r.body⟩

/-- A concrete webhook payload used as the all-six-fields JSON fixture. -/
def fixtureResponse : LocationUpdatedWebhookResponse :=
  ⟨"MERCHANT_1", "LOC_1", LocationWebhookEventType.LocationUpdated,
    "evt_42", ⟨"2020-01-26T02:25:34Z"⟩, ⟨"location", "LOC_1"⟩⟩

/-- The literal JSON fixture with all six fields. -/
def fixtureJson : Json :=
  Json.obj [("merchant_id", Json.str "MERCHANT_1"),
    ("location_id", Json.str "LOC_1"),
    ("type", Json.str "location.updated"),
    ("event_id", Json.str "evt_42"),
    ("created_at", Json.str "2020-01-26T02:25:34Z"),
    ("data", Json.obj [("type", Json.str "location"), ("id", Json.str "LOC_1")])]

/-- C1: for every base URL, customer id and group id, each operation of
`CustomersApi` builds the concatenation of the base URL with the fixed
path `/customers` plus the operation's suffix: `list_customers` and
`create_customer` use `/customers`, `search_customers` uses
`/customers/search`, `retrieve_customer`, `update_customer` and
`delete_customer` use the customer id segment, `add_group_to_customer` and
`remove_group_from_customer` use the customer-id/groups/group-id segments;
in particular customer id `abc` and group id `g1` yield a URL ending in
`/customers/abc/groups/g1`. -/
theorem customers_api_url_construction
    (api : CustomersApi) (customer_id group_id : String)
    (dL : HttpResponse → Except SquareApiError ListCustomersResponse)
    (dC : HttpResponse → Except SquareApiError CreateCustomerResponse)
    (dS : HttpResponse → Except SquareApiError SearchCustomersResponse)
    (dD : HttpResponse → Except SquareApiError DeleteCustomerResponse)
    (dR : HttpResponse → Except SquareApiError RetrieveCustomerResponse)
    (dU : HttpResponse → Except SquareApiError UpdateCustomerResponse)
    (dRm : HttpResponse → Except SquareApiError RemoveGroupFromCustomerResponse)
    (dA : HttpResponse → Except SquareApiError AddGroupToCustomerResponse)
    (bodyC : CreateCustomerRequest) (bodyS : SearchCustomersRequest)
    (bodyU : UpdateCustomerRequest) :
    (api.list_customers dL ⟨none⟩).urls = [api.config.base_url ++ "/customers"] ∧
    (api.create_customer dC bodyC).urls = [api.config.base_url ++ "/customers"] ∧
    (api.search_customers dS bodyS).urls = [api.config.base_url ++ "/customers/search"] ∧
    (api.retrieve_customer dR customer_id).urls =
      [api.config.base_url ++ "/customers/" ++ customer_id] ∧
    (api.update_customer dU customer_id bodyU).urls =
      [api.config.base_url ++ "/customers/" ++ customer_id] ∧
    (api.delete_customer dD customer_id ⟨none⟩).urls =
      [api.config.base_url ++ "/customers/" ++ customer_id] ∧
    (api.add_group_to_customer dA customer_id group_id).urls =
      [api.config.base_url ++ "/customers/" ++ customer_id ++ "/groups/" ++ group_id] ∧
    (api.remove_group_from_customer dRm customer_id group_id).urls =
      [api.config.base_url ++ "/customers/" ++ customer_id ++ "/groups/" ++ group_id] ∧
    (api.add_group_to_customer dA "abc" "g1").urls =
      [api.config.base_url ++ "/customers/abc/groups/g1"] ∧
    (api.remove_group_from_customer dRm "abc" "g1").urls =
      [api.config.base_url ++ "/customers/abc/groups/g1"] := by
  refine ⟨?_, ?_, ?_, ?_, ?_, ?_, ?_, ?_, ?_, ?_⟩ <;>
    simp only [CustomersApi.list_customers, CustomersApi.create_customer,
      CustomersApi.search_customers, CustomersApi.retrieve_customer,
      CustomersApi.update_customer, CustomersApi.delete_customer,
      CustomersApi.add_group_to_customer, CustomersApi.remove_group_from_customer,
      CustomersApi.url, Configuration.get_base_url, DEFAULT_URI,
      HttpClient.get, HttpClient.post, HttpClient.put, HttpClient.delete,
      HttpClient.empty_put, CallOutcome.urls, List.map,
      ListCustomersParameters.to_query_string,
      DeleteCustomerParameters.to_query_string,
      String.append_empty, String.append_assoc] <;>
    try rfl

/-- C2: each operation issues its appropriate verb, and only that verb:
`list_customers` and `retrieve_customer` GET, `create_customer` and
`search_customers` POST, `update_customer` and `add_group_to_customer`
PUT, `delete_customer` and `remove_group_from_customer` DELETE. -/
theorem customers_api_verbs
    (api : CustomersApi) (customer_id group_id : String)
    (dL : HttpResponse → Except SquareApiError ListCustomersResponse)
    (dC : HttpResponse → Except SquareApiError CreateCustomerResponse)
    (dS : HttpResponse → Except SquareApiError SearchCustomersResponse)
    (dD : HttpResponse → Except SquareApiError DeleteCustomerResponse)
    (dR : HttpResponse → Except SquareApiError RetrieveCustomerResponse)
    (dU : HttpResponse → Except SquareApiError UpdateCustomerResponse)
    (dRm : HttpResponse → Except SquareApiError RemoveGroupFromCustomerResponse)
    (dA : HttpResponse → Except SquareApiError AddGroupToCustomerResponse)
    (params : ListCustomersParameters) (paramsD : DeleteCustomerParameters)
    (bodyC : CreateCustomerRequest) (bodyS : SearchCustomersRequest)
    (bodyU : UpdateCustomerRequest) :
    (api.list_customers dL params).methods = [Method.GET] ∧
    (api.retrieve_customer dR customer_id).methods = [Method.GET] ∧
    (api.create_customer dC bodyC).methods = [Method.POST] ∧
    (api.search_customers dS bodyS).methods = [Method.POST] ∧
    (api.update_customer dU customer_id bodyU).methods = [Method.PUT] ∧
    (api.add_group_to_customer dA customer_id group_id).methods = [Method.PUT] ∧
    (api.delete_customer dD customer_id paramsD).methods = [Method.DELETE] ∧
    (api.remove_group_from_customer dRm customer_id group_id).methods = [Method.DELETE] :=
  ⟨rfl, rfl, rfl, rfl, rfl, rfl, rfl, rfl⟩

/-- C4: every call performs exactly one HTTP request, on the success path
and on the error path alike (the request list does not depend on the
transport's or the deserializer's outcome), and returns the original
client with the result: no batching and no second request. -/
theorem customers_api_single_request
    (api : CustomersApi) (customer_id group_id : String)
    (dL : HttpResponse → Except SquareApiError ListCustomersResponse)
    (dC : HttpResponse → Except SquareApiError CreateCustomerResponse)
    (dS : HttpResponse → Except SquareApiError SearchCustomersResponse)
    (dD : HttpResponse → Except SquareApiError DeleteCustomerResponse)
    (dR : HttpResponse → Except SquareApiError RetrieveCustomerResponse)
    (dU : HttpResponse → Except SquareApiError UpdateCustomerResponse)
    (dRm : HttpResponse → Except SquareApiError RemoveGroupFromCustomerResponse)
    (dA : HttpResponse → Except SquareApiError AddGroupToCustomerResponse)
    (params : ListCustomersParameters) (paramsD : DeleteCustomerParameters)
    (bodyC : CreateCustomerRequest) (bodyS : SearchCustomersRequest)
    (bodyU : UpdateCustomerRequest) :
    (api.list_customers dL params).requests.length = 1 ∧
    (api.create_customer dC bodyC).requests.length = 1 ∧
    (api.search_customers dS bodyS).requests.length = 1 ∧
    (api.delete_customer dD customer_id paramsD).requests.length = 1 ∧
    (api.retrieve_customer dR customer_id).requests.length = 1 ∧
    (api.update_customer dU customer_id bodyU).requests.length = 1 ∧
    (api.remove_group_from_customer dRm customer_id group_id).requests.length = 1 ∧
    (api.add_group_to_customer dA customer_id group_id).requests.length = 1 :=
  ⟨rfl, rfl, rfl, rfl, rfl, rfl, rfl, rfl⟩

/-- C5: for `list_customers` and `delete_customer` the query string
produced by `to_query_string` is appended verbatim to the constructed
path: directly after `/customers` for `list_customers` and directly after
the customer-id segment for `delete_customer`. -/
theorem customers_api_query_string_verbatim
    (api : CustomersApi) (customer_id : String)
    (dL : HttpResponse → Except SquareApiError ListCustomersResponse)
    (dD : HttpResponse → Except SquareApiError DeleteCustomerResponse)
    (params : ListCustomersParameters) (paramsD : DeleteCustomerParameters) :
    (api.list_customers dL params).urls =
      [api.config.base_url ++ "/customers" ++ params.to_query_string] ∧
    (api.delete_customer dD customer_id paramsD).urls =
      [api.config.base_url ++ "/customers/" ++ customer_id ++ paramsD.to_query_string] := by
  constructor <;>
    (simp only [CustomersApi.list_customers, CustomersApi.delete_customer,
      CustomersApi.url, Configuration.get_base_url, DEFAULT_URI,
      HttpClient.get, HttpClient.delete, CallOutcome.urls, List.map,
      String.append_assoc]
     try rfl)

/-- C3: every operation returns `ok` with the deserialized payload exactly
when the single transport call and the deserialization both succeed, and
otherwise returns the error produced by the transport or by the
deserializer unchanged — no retry, recovery, or transformation. -/
theorem customers_api_error_propagation
    (api : CustomersApi) (customer_id group_id : String)
    (dL : HttpResponse → Except SquareApiError ListCustomersResponse)
    (dC : HttpResponse → Except SquareApiError CreateCustomerResponse)
    (dS : HttpResponse → Except SquareApiError SearchCustomersResponse)
    (dD : HttpResponse → Except SquareApiError DeleteCustomerResponse)
    (dR : HttpResponse → Except SquareApiError RetrieveCustomerResponse)
    (dU : HttpResponse → Except SquareApiError UpdateCustomerResponse)
    (dRm : HttpResponse → Except SquareApiError RemoveGroupFromCustomerResponse)
    (dA : HttpResponse → Except SquareApiError AddGroupToCustomerResponse)
    (params : ListCustomersParameters) (paramsD : DeleteCustomerParameters)
    (bodyC : CreateCustomerRequest) (bodyS : SearchCustomersRequest)
    (bodyU : UpdateCustomerRequest) :
    PropagatesDirectly api.http_client
      ⟨Method.GET, api.url ++ params.to_query_string, none⟩ dL
      (api.list_customers dL params).result ∧
    PropagatesDirectly api.http_client
      ⟨Method.POST, api.url, some bodyC.toJson⟩ dC
      (api.create_customer dC bodyC).result ∧
    PropagatesDirectly api.http_client
      ⟨Method.POST, api.url ++ "/search", some bodyS.toJson⟩ dS
      (api.search_customers dS bodyS).result ∧
    PropagatesDirectly api.http_client
      ⟨Method.DELETE, api.url ++ "/" ++ customer_id ++ paramsD.to_query_string, none⟩ dD
      (api.delete_customer dD customer_id paramsD).result ∧
    PropagatesDirectly api.http_client
      ⟨Method.GET, api.url ++ "/" ++ customer_id, none⟩ dR
      (api.retrieve_customer dR customer_id).result ∧
    PropagatesDirectly api.http_client
      ⟨Method.PUT, api.url ++ "/" ++ customer_id, some bodyU.toJson⟩ dU
      (api.update_customer dU customer_id bodyU).result ∧
    PropagatesDirectly api.http_client
      ⟨Method.DELETE, api.url ++ "/" ++ customer_id ++ "/groups/" ++ group_id, none⟩ dRm
      (api.remove_group_from_customer dRm customer_id group_id).result ∧
    PropagatesDirectly api.http_client
      ⟨Method.PUT, api.url ++ "/" ++ customer_id ++ "/groups/" ++ group_id, none⟩ dA
      (api.add_group_to_customer dA customer_id group_id).result :=
  ⟨handleResponse_propagates _ _ _, handleResponse_propagates _ _ _,
    handleResponse_propagates _ _ _, handleResponse_propagates _ _ _,
    handleResponse_propagates _ _ _, handleResponse_propagates _ _ _,
    handleResponse_propagates _ _ _, handleResponse_propagates _ _ _⟩

/-- C6: the caller-supplied version token is passed through verbatim and
never interpreted: for `delete_customer` it appears unchanged in the query
string, for `update_customer` it appears unchanged in the serialized body,
and in both operations the result is obtained from the transport's answer
by the same token-independent handling, so two calls whose requests the
transport answers identically return identical results. -/
theorem version_token_passthrough
    (api : CustomersApi) (customer_id : String) (v : Int)
    (dD : HttpResponse → Except SquareApiError DeleteCustomerResponse)
    (dU : HttpResponse → Except SquareApiError UpdateCustomerResponse)
    (b : UpdateCustomerRequest)
    (p1 p2 : DeleteCustomerParameters) (b1 b2 : UpdateCustomerRequest) :
    DeleteCustomerParameters.to_query_string ⟨some v⟩ = "?version=" ++ toString v ∧
    (b.version = some v →
      (UpdateCustomerRequest.toJson b).getField "version" = some (Json.num v)) ∧
    (api.delete_customer dD customer_id p1).result =
      handleResponse dD (api.http_client
        ⟨Method.DELETE, api.url ++ "/" ++ customer_id ++ p1.to_query_string, none⟩) ∧
    (api.update_customer dU customer_id b1).result =
      handleResponse dU (api.http_client
        ⟨Method.PUT, api.url ++ "/" ++ customer_id, some b1.toJson⟩) ∧
    (api.http_client ⟨Method.DELETE,
        api.url ++ "/" ++ customer_id ++ p1.to_query_string, none⟩ =
      api.http_client ⟨Method.DELETE,
        api.url ++ "/" ++ customer_id ++ p2.to_query_string, none⟩ →
      (api.delete_customer dD customer_id p1).result =
        (api.delete_customer dD customer_id p2).result) ∧
    (api.http_client ⟨Method.PUT, api.url ++ "/" ++ customer_id, some b1.toJson⟩ =
      api.http_client ⟨Method.PUT, api.url ++ "/" ++ customer_id, some b2.toJson⟩ →
      (api.update_customer dU customer_id b1).result =
        (api.update_customer dU customer_id b2).result) := by
  refine ⟨rfl, ?_, rfl, rfl, fun h => ?_, fun h => ?_⟩
  · intro hv
    obtain ⟨gn, fn, ea, ver⟩ := b
    cases hv
    cases gn <;> cases fn <;> cases ea <;> rfl
  · simp only [CustomersApi.delete_customer, HttpClient.delete]
    rw [h]
  · simp only [CustomersApi.update_customer, HttpClient.put]
    rw [h]

/-- Witness for C6 at concrete inputs: token 7 renders as `?version=7` in
the delete query string, appears as the `version` field of the serialized
update body, and under a transport answering both requests identically the
delete results for tokens 1 and 2 coincide. -/
theorem version_token_passthrough_witness :
    DeleteCustomerParameters.to_query_string ⟨some 7⟩ = "?version=7" ∧
    (UpdateCustomerRequest.toJson ⟨none, none, none, some 7⟩).getField "version" =
      some (Json.num 7) ∧
    (demoApi.delete_customer demoDeleteDeser "c1" ⟨some 1⟩).result =
      (demoApi.delete_customer demoDeleteDeser "c1" ⟨some 2⟩).result := by
  obtain ⟨h1, h2, -, -, h5, h6⟩ :=
    version_token_passthrough demoApi "c1" 7 demoDeleteDeser demoUpdateDeser
      ⟨none, none, none, some 7⟩ ⟨some 1⟩ ⟨some 2⟩
      ⟨none, none, none, some 1⟩ ⟨none, none, none, some 2⟩
  exact ⟨h1.trans (by decide), h2 rfl, h5 rfl⟩

/-- C7: serialization of the webhook model round-trips: deserializing the
JSON produced by serializing any `LocationUpdatedWebhookResponse` yields
the same value, and deserializing the six-field JSON fixture reproduces
the fixture when re-serialized. -/
theorem location_updated_webhook_roundtrip :
    (∀ x : LocationUpdatedWebhookResponse,
      LocationUpdatedWebhookResponse.fromJson x.toJson = some x) ∧
    LocationUpdatedWebhookResponse.fromJson fixtureJson = some fixtureResponse ∧
    fixtureResponse.toJson = fixtureJson := by
  refine ⟨fun x => ?_, rfl, rfl⟩
  obtain ⟨m, l, t, e, ⟨c⟩, ⟨dt, di⟩⟩ := x
  cases t
  rfl

/-- C8: no operation mutates the client: the client returned in every
call's outcome is the one the call started from, so its configuration,
base URL and transport handle are identical before and after the call, and
the URL the client builds is the same on every call with the same
arguments. -/
theorem customers_api_no_mutation
    (api : CustomersApi) (customer_id group_id : String)
    (dL : HttpResponse → Except SquareApiError ListCustomersResponse)
    (dC : HttpResponse → Except SquareApiError CreateCustomerResponse)
    (dS : HttpResponse → Except SquareApiError SearchCustomersResponse)
    (dD : HttpResponse → Except SquareApiError DeleteCustomerResponse)
    (dR : HttpResponse → Except SquareApiError RetrieveCustomerResponse)
    (dU : HttpResponse → Except SquareApiError UpdateCustomerResponse)
    (dRm : HttpResponse → Except SquareApiError RemoveGroupFromCustomerResponse)
    (dA : HttpResponse → Except SquareApiError AddGroupToCustomerResponse)
    (params : ListCustomersParameters) (paramsD : DeleteCustomerParameters)
    (bodyC : CreateCustomerRequest) (bodyS : SearchCustomersRequest)
    (bodyU : UpdateCustomerRequest) :
    (api.list_customers dL params).api = api ∧
    (api.create_customer dC bodyC).api = api ∧
    (api.search_customers dS bodyS).api = api ∧
    (api.delete_customer dD customer_id paramsD).api = api ∧
    (api.retrieve_customer dR customer_id).api = api ∧
    (api.update_customer dU customer_id bodyU).api = api ∧
    (api.remove_group_from_customer dRm customer_id group_id).api = api ∧
    (api.add_group_to_customer dA customer_id group_id).api = api ∧
    (api.retrieve_customer dR customer_id).api.url = api.url ∧
    ((api.retrieve_customer dR customer_id).api.retrieve_customer dR customer_id).urls =
      (api.retrieve_customer dR customer_id).urls :=
  ⟨rfl, rfl, rfl, rfl, rfl, rfl, rfl, rfl, rfl, rfl⟩

/-- C9: path parameters are concatenated into the URL verbatim, with no
percent-encoding, escaping, or validation: for arbitrary customer and
group id strings the id appears as-is after the path, and in particular
the id `a/b` (containing a slash) yields a URL ending in
`/customers/a/b`. -/
theorem path_params_verbatim
    (api : CustomersApi) (customer_id group_id : String)
    (dD : HttpResponse → Except SquareApiError DeleteCustomerResponse)
    (dR : HttpResponse → Except SquareApiError RetrieveCustomerResponse)
    (dU : HttpResponse → Except SquareApiError UpdateCustomerResponse)
    (dRm : HttpResponse → Except SquareApiError RemoveGroupFromCustomerResponse)
    (dA : HttpResponse → Except SquareApiError AddGroupToCustomerResponse)
    (paramsD : DeleteCustomerParameters) (bodyU : UpdateCustomerRequest) :
    (api.retrieve_customer dR customer_id).urls =
      [api.config.base_url ++ "/customers/" ++ customer_id] ∧
    (api.update_customer dU customer_id bodyU).urls =
      [api.config.base_url ++ "/customers/" ++ customer_id] ∧
    (api.delete_customer dD customer_id paramsD).urls =
      [api.config.base_url ++ "/customers/" ++ customer_id ++ paramsD.to_query_string] ∧
    (api.add_group_to_customer dA customer_id group_id).urls =
      [api.config.base_url ++ "/customers/" ++ customer_id ++ "/groups/" ++ group_id] ∧
    (api.remove_group_from_customer dRm customer_id group_id).urls =
      [api.config.base_url ++ "/customers/" ++ customer_id ++ "/groups/" ++ group_id] ∧
    (api.retrieve_customer dR "a/b").urls =
      [api.config.base_url ++ "/customers/a/b"] ∧
    (api.retrieve_customer dR "x?y#z w").urls =
      [api.config.base_url ++ "/customers/x?y#z w"] := by
  refine ⟨?_, ?_, ?_, ?_, ?_, ?_, ?_⟩ <;>
    simp only [CustomersApi.retrieve_customer, CustomersApi.update_customer,
      CustomersApi.delete_customer, CustomersApi.add_group_to_customer,
      CustomersApi.remove_group_from_customer, CustomersApi.url,
      Configuration.get_base_url, DEFAULT_URI, HttpClient.get, HttpClient.put,
      HttpClient.delete, HttpClient.empty_put, CallOutcome.urls, List.map,
      String.append_assoc] <;>
    try rfl

/-- C10: `add_group_to_customer` issues a PUT with no request body (via
`empty_put`) while `update_customer`, the other PUT operation, always
sends its serialized body; every other operation issues a request that is
not a bodiless PUT, so `add_group_to_customer` is the only operation that
transmits nothing beyond the URL on a PUT. -/
theorem add_group_unique_bodiless_put
    (api : CustomersApi) (customer_id group_id : String)
    (dL : HttpResponse → Except SquareApiError ListCustomersResponse)
    (dC : HttpResponse → Except SquareApiError CreateCustomerResponse)
    (dS : HttpResponse → Except SquareApiError SearchCustomersResponse)
    (dD : HttpResponse → Except SquareApiError DeleteCustomerResponse)
    (dR : HttpResponse → Except SquareApiError RetrieveCustomerResponse)
    (dU : HttpResponse → Except SquareApiError UpdateCustomerResponse)
    (dRm : HttpResponse → Except SquareApiError RemoveGroupFromCustomerResponse)
    (dA : HttpResponse → Except SquareApiError AddGroupToCustomerResponse)
    (params : ListCustomersParameters) (paramsD : DeleteCustomerParameters)
    (bodyC : CreateCustomerRequest) (bodyS : SearchCustomersRequest)
    (bodyU : UpdateCustomerRequest) :
    (api.add_group_to_customer dA customer_id group_id).requests =
      [⟨Method.PUT, api.url ++ "/" ++ customer_id ++ "/groups/" ++ group_id, none⟩] ∧
    (api.update_customer dU customer_id bodyU).requests =
      [⟨Method.PUT, api.url ++ "/" ++ customer_id, some bodyU.toJson⟩] ∧
    ((api.list_customers dL params).requests.all
      (fun r => !(decide (r.method = Method.PUT) && r.body.isNone))) = true ∧
    ((api.create_customer dC bodyC).requests.all
      (fun r => !(decide (r.method = Method.PUT) && r.body.isNone))) = true ∧
    ((api.search_customers dS bodyS).requests.all
      (fun r => !(decide (r.method = Method.PUT) && r.body.isNone))) = true ∧
    ((api.delete_customer dD customer_id paramsD).requests.all
      (fun r => !(decide (r.method = Method.PUT) && r.body.isNone))) = true ∧
    ((api.retrieve_customer dR customer_id).requests.all
      (fun r => !(decide (r.method = Method.PUT) && r.body.isNone))) = true ∧
    ((api.remove_group_from_customer dRm customer_id group_id).requests.all
      (fun r => !(decide (r.method = Method.PUT) && r.body.isNone))) = true ∧
    ((api.update_customer dU customer_id bodyU).requests.all
      (fun r => !(decide (r.method = Method.PUT) && r.body.isNone))) = true :=
  ⟨rfl, rfl, rfl, rfl, rfl, rfl, rfl, rfl, rfl⟩

end Squareup
